import Mathlib

/-!
Verification development for the tsv-bue-tennis-app backend
(src/backend/src). The definitions shallowly embed the Rust source:
pure helpers from src/backend/src/utils.rs, the data model from
src/backend/src/models.rs, and the request handlers of
src/backend/src/main.rs (dashboard, create/update/delete work hour,
get work hour by id). f64 values are modelled as rationals; the
chrono date parsing used by the source is modelled by explicit
parsers below.
-/

namespace TennisApp

/-! ## Calendar dates

The source parses birth dates and submission dates with chrono:
either RFC3339 date-times (DateTime::parse_from_rfc3339) or plain
dates (NaiveDate::parse_from_str with format %Y-%m-%d). We model a
calendar date as year/month/day and implement both parsers over the
character list of the input string. The model accepts the canonical
four-digit-year forms; chrono validates real calendar dates, which
the model reproduces including leap years. -/

structure YMD where
  year : Int
  month : Nat
  day : Nat
deriving DecidableEq, Repr

def is_leap_year (y : Int) : Bool :=
  y % 4 = 0 && (y % 100 != 0 || y % 400 = 0)

def days_in_month (y : Int) (m : Nat) : Nat :=
  if m = 1 then 31
  else if m = 2 then (if is_leap_year y then 29 else 28)
  else if m = 3 then 31
  else if m = 4 then 30
  else if m = 5 then 31
  else if m = 6 then 30
  else if m = 7 then 31
  else if m = 8 then 31
  else if m = 9 then 30
  else if m = 10 then 31
  else if m = 11 then 30
  else if m = 12 then 31
  else 0

def valid_ymd (d : YMD) : Bool :=
  1 ≤ d.month && d.month ≤ 12 && 1 ≤ d.day && d.day ≤ days_in_month d.year d.month

def digit_val (c : Char) : Nat := c.toNat - '0'.toNat

/-- Consume exactly n digits, returning their value and the rest. -/
def read_digits_exact : Nat → List Char → Option (Nat × List Char)
  | 0, cs => some (0, cs)
  | _ + 1, [] => none
  | n + 1, c :: cs =>
    if c.isDigit then
      match read_digits_exact n cs with
      | some (v, rest) => some (digit_val c * 10 ^ n + v, rest)
      | none => none
    else none

/-- Consume one or two digits (chrono numeric fields accept
unpadded one-digit months and days). -/
def read_digits_1to2 : List Char → Option (Nat × List Char)
  | [] => none
  | c :: cs =>
    if c.isDigit then
      match cs with
      | c2 :: rest =>
        if c2.isDigit then some (digit_val c * 10 + digit_val c2, rest)
        else some (digit_val c, cs)
      | [] => some (digit_val c, [])
    else none

def expect_char (c : Char) : List Char → Option (List Char)
  | [] => none
  | x :: xs => if x = c then some xs else none

/-- NaiveDate::parse_from_str with format %Y-%m-%d: four-digit year,
dashes, one-or-two-digit month and day, nothing trailing, and the
date must be a valid calendar date. -/
def parse_ymd (s : String) : Option YMD :=
  match read_digits_exact 4 s.data with
  | none => none
  | some (y, cs) =>
    match expect_char '-' cs with
    | none => none
    | some cs =>
      match read_digits_1to2 cs with
      | none => none
      | some (m, cs) =>
        match expect_char '-' cs with
        | none => none
        | some cs =>
          match read_digits_1to2 cs with
          | none => none
          | some (d, cs) =>
            if cs = [] then
              let date : YMD := { year := (y : Int), month := m, day := d }
              if valid_ymd date then some date else none
            else none

/-! ### RFC3339 date-times

DateTime::parse_from_rfc3339 accepts
YYYY-MM-DD(T|t| )hh:mm:ss[.frac](Z|z|+hh:mm|-hh:mm).
The source then takes naive_utc().date(), i.e. the date after
subtracting the offset; crossing midnight can change the year. We
reproduce this with the standard civil-day arithmetic. Leap seconds
are omitted from the model (seconds 00-59). -/

structure RFC3339 where
  date : YMD
  hour : Nat
  minute : Nat
  second : Nat
  offset_minutes : Int
deriving DecidableEq, Repr

def read_fraction : List Char → Option (List Char)
  | [] => none
  | c :: cs =>
    if c = '.' then
      match cs with
      | c2 :: _ =>
        if c2.isDigit then some (cs.dropWhile Char.isDigit) else none
      | [] => none
    else some (c :: cs)

def read_offset : List Char → Option (Int × List Char)
  | [] => none
  | c :: cs =>
    if c = 'Z' || c = 'z' then some (0, cs)
    else if c = '+' || c = '-' then
      match read_digits_exact 2 cs with
      | none => none
      | some (oh, cs) =>
        match expect_char ':' cs with
        | none => none
        | some cs =>
          match read_digits_exact 2 cs with
          | none => none
          | some (om, cs) =>
            if oh ≤ 23 && om ≤ 59 then
              let total : Int := oh * 60 + om
              some (if c = '-' then -total else total, cs)
            else none
    else none

def parse_rfc3339 (s : String) : Option RFC3339 :=
  match read_digits_exact 4 s.data with
  | none => none
  | some (y, cs) =>
    match expect_char '-' cs with
    | none => none
    | some cs =>
      match read_digits_exact 2 cs with
      | none => none
      | some (mo, cs) =>
        match expect_char '-' cs with
        | none => none
        | some cs =>
          match read_digits_exact 2 cs with
          | none => none
          | some (d, cs) =>
            match cs with
            | [] => none
            | sep :: cs =>
              if sep = 'T' || sep = 't' || sep = ' ' then
                match read_digits_exact 2 cs with
                | none => none
                | some (h, cs) =>
                  match expect_char ':' cs with
                  | none => none
                  | some cs =>
                    match read_digits_exact 2 cs with
                    | none => none
                    | some (mi, cs) =>
                      match expect_char ':' cs with
                      | none => none
                      | some cs =>
                        match read_digits_exact 2 cs with
                        | none => none
                        | some (sec, cs) =>
                          match read_fraction cs with
                          | none => none
                          | some cs =>
                            match read_offset cs with
                            | none => none
                            | some (off, cs) =>
                              let date : YMD := { year := (y : Int), month := mo, day := d }
                              if cs = [] && valid_ymd date && h ≤ 23 && mi ≤ 59 && sec ≤ 59 then
                                some { date := date, hour := h, minute := mi,
                                       second := sec, offset_minutes := off }
                              else none
              else none

/-- Days since 1970-01-01 of a civil date (the Howard Hinnant
days_from_civil algorithm; all inner divisions act on nonnegative
values). -/
def days_from_civil (d : YMD) : Int :=
  let y : Int := if d.month ≤ 2 then d.year - 1 else d.year
  let era : Int := Int.fdiv y 400
  let yoe : Int := y - era * 400
  let mp : Int := if 2 < d.month then (d.month : Int) - 3 else (d.month : Int) + 9
  let doy : Int := (153 * mp + 2) / 5 + (d.day : Int) - 1
  let doe : Int := yoe * 365 + yoe / 4 - yoe / 100 + doy
  era * 146097 + doe - 719468

/-- Civil date of a day count since 1970-01-01 (civil_from_days). -/
def civil_from_days (z0 : Int) : YMD :=
  let z : Int := z0 + 719468
  let era : Int := Int.fdiv z 146097
  let doe : Int := z - era * 146097
  let yoe : Int := (doe - doe / 1460 + doe / 36524 - doe / 146096) / 365
  let y : Int := yoe + era * 400
  let doy : Int := doe - (365 * yoe + yoe / 4 - yoe / 100)
  let mp : Int := (5 * doy + 2) / 153
  let day : Int := doy - (153 * mp + 2) / 5 + 1
  let m : Int := if mp < 10 then mp + 3 else mp - 9
  { year := if m ≤ 2 then y + 1 else y, month := m.toNat, day := day.toNat }

/-- The UTC civil date of a parsed RFC3339 date-time
(naive_utc().date() in the source). -/
def rfc3339_utc_date (s : String) : Option YMD :=
  match parse_rfc3339 s with
  | none => none
  | some t =>
    let total_seconds : Int :=
      days_from_civil t.date * 86400 + (t.hour : Int) * 3600 +
        (t.minute : Int) * 60 + (t.second : Int) - t.offset_minutes * 60
    some (civil_from_days (Int.fdiv total_seconds 86400))

/-- Year of naive_utc().date() for an RFC3339 birth-date string. -/
def rfc3339_utc_year (s : String) : Option Int :=
  (rfc3339_utc_date s).map YMD.year

/-! ## Data model (src/backend/src/models.rs)

f64 fields are modelled as rationals. -/

/-- Member record (models.rs, struct Member). Note: the struct has
no join-date field; only id, names, email, family and birth date
exist. -/
structure Member where
  id : String
  first_name : String
  last_name : String
  email : String
  family_id : Option String
  birth_date : Option String
deriving DecidableEq, Repr

/-- Member::name: the first name, a space, then the last name. -/
def Member.name (m : Member) : String :=
  m.first_name ++ (" ") ++ m.last_name

/-- The serde_json::Value stored in the linked-record field
Mitglied_id, restricted to the shapes WorkHour::get_member_id
distinguishes: a JSON object (with an optional string id property),
a bare string, or anything else. -/
inductive MemberIdValue where
  | obj (id : Option String)
  | str (s : String)
  | other
deriving DecidableEq, Repr

/-- Work-hour record (models.rs, struct WorkHour). The order,
Nachname, Vorname and created_on fields are dead code in the source
and omitted. -/
structure WorkHour where
  id : String
  member_id : Option MemberIdValue
  member_uuid : Option String
  date : Option String
  description : Option String
  duration_seconds : Option ℚ
deriving DecidableEq, Repr

/-- WorkHour::get_member_id: object form takes its id property
(failing when absent or non-string), a bare string is used directly,
anything else is None. -/
def WorkHour.get_member_id (wh : WorkHour) : Option String :=
  match wh.member_id with
  | some (.obj i) => i
  | some (.str s) => some s
  | some .other => none
  | none => none

/-- Converted entry exposed to clients (models.rs, WorkHourEntry). -/
structure WorkHourEntry where
  id : String
  date : String
  description : String
  duration_hours : ℚ
deriving DecidableEq, Repr

/-- Submission payload (models.rs, CreateWorkHourRequest); the
Stunden field deserializes from a number or a numeric string and is
a plain number here. -/
structure CreateWorkHourRequest where
  date : String
  description : String
  hours : ℚ
deriving DecidableEq, Repr

/-! ## Pure helpers (src/backend/src/utils.rs) -/

/-- round_to_2_decimals. Rust f64::round rounds half away from
zero; Mathlib round is floor of x + 1/2 (half up); the two agree on
the nonnegative values that occur here. -/
def round_to_2_decimals (value : ℚ) : ℚ :=
  ((round (value * 100) : ℤ) : ℚ) / 100

/-- seconds_to_hours. -/
def seconds_to_hours (seconds : ℚ) : ℚ :=
  round_to_2_decimals (seconds / 3600)

/-- calculate_total_hours: sum of duration_hours, rounded to two
decimals. -/
def calculate_total_hours (entries : List WorkHourEntry) : ℚ :=
  round_to_2_decimals ((entries.map (fun wh => wh.duration_hours)).sum)

/-- Date normalization (utils.rs filter_work_hours_for_user_by_year,
and the spec round-trip rule): take the prefix before the first T,
the identity when no T occurs. -/
def normalize_date (date : String) : String :=
  String.mk (date.data.takeWhile (fun c => !(decide (c = 'T'))))

/-- str::trim().is_empty() in Rust: every character is whitespace.
Lean Char.isWhitespace covers space, tab, CR and LF; the exotic
Unicode whitespace accepted by Rust does not occur in the claims. -/
def trim_is_empty (s : String) : Bool :=
  s.data.all Char.isWhitespace

/-- is_member_eligible_for_work_hours (utils.rs lines 134-194):
parse the birth date (RFC3339 first, then %Y-%m-%d), compute the age
in the given year, eligible iff 17 <= age < 70; an absent, empty or
unparseable birth date means eligible (fail-open). -/
def is_member_eligible_for_work_hours (m : Member) (current_year : Int) : Bool :=
  match m.birth_date with
  | some birth_date_str =>
    if trim_is_empty birth_date_str then true
    else
      match rfc3339_utc_year birth_date_str with
      | some birth_year =>
        decide (17 ≤ current_year - birth_year ∧ current_year - birth_year < 70)
      | none =>
        match parse_ymd birth_date_str with
        | some birth_date =>
          decide (17 ≤ current_year - birth_date.year ∧ current_year - birth_date.year < 70)
        | none => true
  | none => true

/-- get_required_hours_for_member (utils.rs lines 196-207): 8.0
standard hours when eligible, 0.0 otherwise. -/
def get_required_hours_for_member (m : Member) (current_year : Int) : ℚ :=
  if is_member_eligible_for_work_hours m current_year then 8 else 0

/-- The birth year the source extracts, following the same parse
cascade as is_member_eligible_for_work_hours: none when the birth
date is absent, trim-empty, or parses as neither RFC3339 nor
%Y-%m-%d. -/
def member_birth_year (m : Member) : Option Int :=
  match m.birth_date with
  | some birth_date_str =>
    if trim_is_empty birth_date_str then none
    else
      match rfc3339_utc_year birth_date_str with
      | some birth_year => some birth_year
      | none => (parse_ymd birth_date_str).map YMD.year
  | none => none

/-- Modelled from the spec: the src Member model has no join-date
field and the src eligibility code reads none, so spec section 4.1
rule 3 (late-entry exemption) has no counterpart in src. This
predicate renders the spec words: the join date is present, parses
(plain date or full date-time), and falls on or after July 1 of the
year. -/
def join_date_on_or_after_july1 (join_date : String) (year : Int) : Bool :=
  let after : YMD → Bool := fun d =>
    year < d.year || (d.year = year && (7 < d.month || (d.month = 7 && 1 ≤ d.day)))
  match rfc3339_utc_date join_date with
  | some d => after d
  | none =>
    match parse_ymd join_date with
    | some d => after d
    | none => false

/-! ## Work-hour creation (main.rs, create_work_hour, lines
1026-1205)

The handler runs after authentication. External collaborators are
passed as explicit values: the member lookup and the
duplicate-check query as Except results (error = transport
failure), the Records Service create call as an Except result. The
clock is a year/month pair taken from Utc::now. JSON responses are
represented by constructors; the source message texts are noted in
comments. -/

structure Today where
  year : Int
  month : Nat
deriving DecidableEq, Repr

/-- Minimum allowed submission year: previous year during the
January grace period, the current year otherwise (main.rs lines
1080-1084). -/
def min_allowed_year (today : Today) : Int :=
  if today.month = 1 then today.year - 1 else today.year

inductive CreateResponse where
  /-- Err(StatusCode::BAD_REQUEST): empty date, empty description,
  or non-positive hours all yield the same bare 400. -/
  | badRequest
  /-- JSON success:false, German message asking for YYYY-MM-DD. -/
  | badDateFormat
  /-- JSON success:false, January-grace message naming the current
  year and the previous year. -/
  | yearOutOfRangeJan (current_year : Int)
  /-- JSON success:false, strict message naming the current year. -/
  | yearOutOfRangeStrict (current_year : Int)
  /-- Err(StatusCode::INTERNAL_SERVER_ERROR). -/
  | internalError
  /-- Err(StatusCode::NOT_FOUND): member lookup found nothing. -/
  | notFound
  /-- JSON success:false, German only-one-entry-per-day message. -/
  | duplicateEntry
  /-- JSON success:true with the created id and echoed fields. -/
  | created (id user date description : String) (hours : ℚ)
  /-- JSON success:true despite the failed Records Service call,
  with the echoed fields and the upstream error text. -/
  | createdFallback (user date description : String) (hours : ℚ) (err : String)
deriving DecidableEq, Repr

/-- The JSON success flag of a create response (false for the bare
status-code responses, which carry no body). -/
def CreateResponse.success_flag : CreateResponse → Bool
  | .created _ _ _ _ _ => true
  | .createdFallback _ _ _ _ _ => true
  | _ => false

def CreateResponse.is_year_out_of_range : CreateResponse → Bool
  | .yearOutOfRangeJan _ => true
  | .yearOutOfRangeStrict _ => true
  | _ => false

/-- Modelled from the spec:
teable::get_work_hours_for_member_at_date is called by main.rs but
absent from src/backend/src/teable.rs. Per the spec duplicate rule,
it returns the existing entries of the submitting member whose
normalized date equals the submitted date; member matching follows
the linked-record-then-UUID convention of
utils.rs filter_work_hours_for_user_by_year. -/
def get_work_hours_for_member_at_date
    (store : List WorkHour) (member_id date : String) : List WorkHour :=
  store.filter (fun wh =>
    (match wh.get_member_id with
     | some mid => decide (mid = member_id)
     | none =>
       match wh.member_uuid with
       | some u => decide (u = member_id)
       | none => false) &&
    (match wh.date with
     | some ds => decide (normalize_date ds = date)
     | none => false))

/-- Duplicate check and Records Service create (main.rs lines
1131-1204). -/
def create_check_duplicate_and_create (current_user : Member)
    (payload : CreateWorkHourRequest)
    (dup_result : Except Unit (List WorkHour))
    (upstream : Except String WorkHour) : CreateResponse :=
  match dup_result with
  | .error _ => .internalError
  | .ok work_hours_at_date =>
    if work_hours_at_date.isEmpty then
      match upstream with
      | .ok work_hour =>
        .created work_hour.id current_user.name payload.date payload.description payload.hours
      | .error e =>
        -- Source comment: return success anyway for now, just log
        -- the error.
        .createdFallback current_user.name payload.date payload.description payload.hours e
    else .duplicateEntry

/-- Member resolution stage of create_work_hour (main.rs lines
1112-1125). -/
def create_resolve_member (payload : CreateWorkHourRequest)
    (member_lookup : Except Unit (Option Member))
    (dup_result : Except Unit (List WorkHour))
    (upstream : Except String WorkHour) : CreateResponse :=
  match member_lookup with
  | .error _ => .internalError
  | .ok none => .notFound
  | .ok (some current_user) =>
    create_check_duplicate_and_create current_user payload dup_result upstream

/-- Year/grace-period stage of create_work_hour (main.rs lines
1071-1109), taking the outcome of the %Y-%m-%d parse: bad-format
JSON on failure, the year window against the minimum allowed year
otherwise, then member resolution. -/
def create_with_parsed (payload : CreateWorkHourRequest) (today : Today)
    (member_lookup : Except Unit (Option Member))
    (dup_result : Except Unit (List WorkHour))
    (upstream : Except String WorkHour) : Option YMD → CreateResponse
  | some work_date =>
    if work_date.year < min_allowed_year today then
      (if today.month = 1 then .yearOutOfRangeJan today.year
       else .yearOutOfRangeStrict today.year)
    else create_resolve_member payload member_lookup dup_result upstream
  | none => .badDateFormat

/-- create_work_hour (main.rs lines 1026-1205), after
authentication and JSON extraction: emptiness checks on date,
description and hours first (each a bare 400), then the
%Y-%m-%d parse (bad-format JSON on failure), then the
year/grace-period window, then member resolution, duplicate check
and the Records Service create. -/
def create_work_hour (payload : CreateWorkHourRequest) (today : Today)
    (member_lookup : Except Unit (Option Member))
    (dup_result : Except Unit (List WorkHour))
    (upstream : Except String WorkHour) : CreateResponse :=
  if payload.date = "" then .badRequest
  else if payload.description = "" then .badRequest
  else if payload.hours ≤ 0 then .badRequest
  else
    create_with_parsed payload today member_lookup dup_result upstream
      (parse_ymd payload.date)

/-! ## Work-hour read, update, delete (main.rs)

These handlers are modelled over an explicit store (list of
work-hour records) standing for the Records Service table; lookup
by id is find, deletion removes every record with the id. The
handlers run after authentication and member resolution
(current_user). -/

def find_work_hour (store : List WorkHour) (work_hour_id : String) : Option WorkHour :=
  store.find? (fun wh => decide (wh.id = work_hour_id))

/-- Ownership test shared by the get and update handlers: the
linked member id must be present and equal the acting member. -/
def belongs_to_user (wh : WorkHour) (current_user : Member) : Bool :=
  match wh.get_member_id with
  | some member_id => decide (member_id = current_user.id)
  | none => false

inductive GetWHResponse where
  /-- JSON success:false; the source uses the identical message
  (not found or no permission to access) for a missing record and
  for a record owned by someone else. -/
  | notFoundOrNoPermission
  /-- JSON success:false: the record misses date, description or
  duration. -/
  | incompleteData
  /-- JSON success:true with the record fields and the acting
  member names. -/
  | data (id date description : String) (hours : ℚ) (first_name last_name : String)
deriving DecidableEq, Repr

/-- get_work_hour_by_id (main.rs lines 935-1024) after member
resolution. The source reads the duration field of the fetched
record (named duration_hours there, duration_seconds in
models.rs). -/
def get_work_hour_by_id (current_user : Member) (store : List WorkHour)
    (work_hour_id : String) : GetWHResponse :=
  match find_work_hour store work_hour_id with
  | some wh =>
    if belongs_to_user wh current_user then
      match wh.date, wh.description, wh.duration_seconds with
      | some date, some description, some hours =>
        .data wh.id date description hours current_user.first_name current_user.last_name
      | _, _, _ => .incompleteData
    else .notFoundOrNoPermission
  | none => .notFoundOrNoPermission

inductive UpdateWHResponse where
  /-- JSON success:false, date is required. -/
  | dateRequired
  /-- JSON success:false, description is required. -/
  | descriptionRequired
  /-- JSON success:false, hours must be greater than 0. -/
  | hoursInvalid
  /-- JSON success:false, German bad-date-format message. -/
  | badDateFormat
  | yearOutOfRangeJan (current_year : Int)
  | yearOutOfRangeStrict (current_year : Int)
  /-- JSON success:false; identical message (not found or no
  permission to edit) for a missing record and for a record owned
  by someone else. -/
  | notFoundOrNoPermission
  /-- JSON success:false, failed to update. -/
  | updateFailed
  /-- JSON success:true with the echoed fields. -/
  | updated (id user date description : String) (hours : ℚ)
deriving DecidableEq, Repr

/-- Effect of teable::update_work_hour on the stored record:
main.rs passes payload.hours where teable.rs expects seconds,
teable.rs divides by 3600 when writing the Stunden field and the
readers multiply by 3600 again, so the stored duration_seconds
round-trips to payload.hours; the member link is rewritten in
object form. -/
def apply_update (wh : WorkHour) (payload : CreateWorkHourRequest)
    (current_user : Member) : WorkHour :=
  { wh with
    member_id := some (.obj (some current_user.id)),
    date := some payload.date,
    description := some payload.description,
    duration_seconds := some payload.hours }

/-- update_work_hour (main.rs lines 1207-1399) after member
resolution: the same emptiness, format and year checks as creation
(with JSON rejections instead of bare 400s), then the ownership
check against the fetched record, then the Records Service update
(upstream_ok = whether that call succeeds). Returns the response
and the resulting store. -/
def update_work_hour (current_user : Member) (today : Today)
    (store : List WorkHour) (work_hour_id : String)
    (payload : CreateWorkHourRequest) (upstream_ok : Bool) :
    UpdateWHResponse × List WorkHour :=
  if payload.date = "" then (.dateRequired, store)
  else if payload.description = "" then (.descriptionRequired, store)
  else if payload.hours ≤ 0 then (.hoursInvalid, store)
  else
    match parse_ymd payload.date with
    | none => (.badDateFormat, store)
    | some work_date =>
      if work_date.year < min_allowed_year today then
        ((if today.month = 1 then .yearOutOfRangeJan today.year
          else .yearOutOfRangeStrict today.year), store)
      else
        match find_work_hour store work_hour_id with
        | some wh =>
          if belongs_to_user wh current_user then
            if upstream_ok then
              (.updated work_hour_id current_user.name payload.date payload.description payload.hours,
               store.map (fun wh2 =>
                 if wh2.id = work_hour_id then apply_update wh2 payload current_user else wh2))
            else (.updateFailed, store)
          else (.notFoundOrNoPermission, store)
        | none => (.notFoundOrNoPermission, store)

inductive DeleteWHResponse where
  /-- JSON success:true, deleted successfully. -/
  | deleted
  /-- JSON success:false, failed to delete (the Records Service
  call failed, e.g. no such record). -/
  | deleteFailed
deriving DecidableEq, Repr

/-- delete_work_hour (main.rs lines 1401-1421): the handler only
authenticates (the user id is bound to an unused variable) and
forwards the id to teable::delete_work_hour; no ownership check
occurs. The Records Service delete succeeds iff the record exists
and removes every record with the id. -/
def delete_work_hour (store : List WorkHour) (work_hour_id : String) :
    DeleteWHResponse × List WorkHour :=
  match find_work_hour store work_hour_id with
  | some _ => (.deleted, store.filter (fun wh => !(decide (wh.id = work_hour_id))))
  | none => (.deleteFailed, store)

/-! ## Dashboard (main.rs, dashboard handler, lines 703-891)

The year path parameter is a string; str::parse::<i32> is modelled
including the sign and range rules. The per-member work-hour
fetches and their conversion to entries
(convert_work_hours_to_entries is referenced by main.rs but absent
from src/utils.rs) are passed in already converted: the personal
entries as one list, the family as a list of members paired with
their entries. A failed family-members fetch is a 500; a failed
per-member entry fetch is already degraded to an empty list by the
handler and therefore needs no separate error case. -/

/-- str::parse::<i32>: optional single sign, then one or more
digits, nothing else, and the value must fit in a 32-bit signed
integer. -/
def rust_parse_i32 (s : String) : Option Int :=
  match s.data with
  | [] => none
  | c :: rest =>
    let signed : Int × List Char :=
      if c = '+' then (1, rest)
      else if c = '-' then (-1, rest)
      else (1, c :: rest)
    match signed with
    | (sign, digits) =>
      if digits.isEmpty then none
      else if digits.all Char.isDigit then
        let v : Int := sign * ((digits.foldl (fun a c => a * 10 + digit_val c) 0 : Nat) : Int)
        if -(2 ^ 31) ≤ v ∧ v ≤ 2 ^ 31 - 1 then some v else none
      else none

structure FamilyMember where
  id : String
  name : String
  email : String
deriving DecidableEq, Repr

/-- Per-member contribution row (main.rs lines 830-836; the id
field follows main.rs, which extends the models.rs struct). -/
structure MemberContribution where
  id : String
  name : String
  hours : ℚ
  required : ℚ
  entries : List WorkHourEntry
deriving DecidableEq, Repr

structure FamilyData where
  name : String
  members : List FamilyMember
  required : ℚ
  completed : ℚ
  remaining : ℚ
  percentage : ℚ
  member_contributions : List MemberContribution
deriving DecidableEq, Repr

structure PersonalData where
  name : String
  hours : ℚ
  required : ℚ
  entries : List WorkHourEntry
deriving DecidableEq, Repr

structure DashboardResponse where
  success : Bool
  family : Option FamilyData
  personal : Option PersonalData
  year : Int
deriving DecidableEq, Repr

/-- Family aggregation loop of the dashboard handler (main.rs lines
787-865): per member, total hours (rounded per entry list) and
required hours; family totals are the plain sums; the completed
total is not rounded again (family_total_rounded is bound to the
raw sum); remaining clamps at zero; percentage is completed over
required times 100 when required is positive, 100 otherwise, with
no rounding applied. -/
def build_family_data (family_name : String)
    (fam : List (Member × List WorkHourEntry)) (year : Int) : FamilyData :=
  let member_contributions : List MemberContribution :=
    fam.map (fun p =>
      { id := p.1.id, name := p.1.name,
        hours := calculate_total_hours p.2,
        required := get_required_hours_for_member p.1 year,
        entries := p.2 })
  let family_total_hours : ℚ := (fam.map (fun p => calculate_total_hours p.2)).sum
  let family_required_total : ℚ :=
    (fam.map (fun p => get_required_hours_for_member p.1 year)).sum
  let family_total_rounded : ℚ := family_total_hours
  let family_remaining : ℚ := max (family_required_total - family_total_rounded) 0
  let family_percentage : ℚ :=
    if family_required_total > 0 then family_total_rounded / family_required_total * 100
    else 100
  { name := family_name,
    members := fam.map (fun p => { id := p.1.id, name := p.1.name, email := p.1.email }),
    required := family_required_total,
    completed := family_total_rounded,
    remaining := family_remaining,
    percentage := family_percentage,
    member_contributions := member_contributions }

/-- Family block of the dashboard handler (main.rs lines 767-871):
no family data when the family id is absent or empty; otherwise a
failed family-members fetch is a 500 and a successful one is
aggregated. -/
def dashboard_family
    (family_fetch : Except Unit (List (Member × List WorkHourEntry)))
    (year_int : Int) : Option String → Except Nat (Option FamilyData)
  | some family_name =>
    if family_name = "" then .ok none
    else
      match family_fetch with
      | .error _ => .error 500
      | .ok fam => .ok (some (build_family_data family_name fam year_int))
  | none => .ok none

/-- Dashboard continuation once the member is resolved: year
resolution with unwrap_or(2024), personal aggregation, then the
family block and assembly. -/
def dashboard_user (year_param : String) (current_user : Member)
    (family_fetch : Except Unit (List (Member × List WorkHourEntry))) :
    Except Unit (List WorkHourEntry) → Except Nat DashboardResponse
  | .error _ => .error 500
  | .ok user_work_hours =>
    let year_int : Int := (rust_parse_i32 year_param).getD 2024
    let total_hours : ℚ := calculate_total_hours user_work_hours
    let personal_data : PersonalData :=
      { name := current_user.name, hours := total_hours,
        required := get_required_hours_for_member current_user year_int,
        entries := user_work_hours }
    match dashboard_family family_fetch year_int current_user.family_id with
    | .error c => .error c
    | .ok family_data =>
      .ok { success := true, family := family_data,
            personal := some personal_data, year := year_int }

/-- dashboard (main.rs lines 703-891) after authentication: member
lookup (500 on failure, 404 when absent), then the continuation
above. -/
def dashboard (year_param : String)
    (personal_fetch : Except Unit (List WorkHourEntry))
    (family_fetch : Except Unit (List (Member × List WorkHourEntry))) :
    Except Unit (Option Member) → Except Nat DashboardResponse
  | .error _ => .error 500
  | .ok none => .error 404
  | .ok (some current_user) =>
    dashboard_user year_param current_user family_fetch personal_fetch

/-! ## Concrete fixtures used by witnesses and counterexamples -/

def m_adult : Member :=
  { id := "recAdult", first_name := "Max", last_name := "Muster",
    email := "max@example.com", family_id := none,
    birth_date := some ("1990-05-10") }

def m_badbirth : Member :=
  { id := "recBad", first_name := "Berta", last_name := "Beispiel",
    email := "berta@example.com", family_id := none,
    birth_date := some ("not-a-date") }

/-! ## Theorems -/

/-- The eligibility test depends on the member only through the
birth year extracted by the parse cascade. -/
theorem is_member_eligible_eq_birth_year (m : Member) (y : Int) :
    is_member_eligible_for_work_hours m y =
      (match member_birth_year m with
       | some b => decide (17 ≤ y - b ∧ y - b < 70)
       | none => true) := by
  unfold is_member_eligible_for_work_hours member_birth_year
  cases hb : m.birth_date with
  | none => rfl
  | some s =>
    by_cases ht : trim_is_empty s
    · simp [ht]
    · simp only [ht, Bool.false_eq_true, if_false]
      cases hr : rfc3339_utc_year s with
      | some b => rfl
      | none =>
        cases hp : parse_ymd s with
        | some d => simp [Option.map]
        | none => simp [Option.map]

theorem eligible_of_birth_year_some (m : Member) (y b : Int)
    (h : member_birth_year m = some b) :
    is_member_eligible_for_work_hours m y = decide (17 ≤ y - b ∧ y - b < 70) := by
  rw [is_member_eligible_eq_birth_year, h]

theorem eligible_of_birth_year_none (m : Member) (y : Int)
    (h : member_birth_year m = none) :
    is_member_eligible_for_work_hours m y = true := by
  rw [is_member_eligible_eq_birth_year, h]

/-- C5: for a member whose birth date parses (RFC3339 first, then
plain %Y-%m-%d) to birth year b, the required hours are 0 exactly
when the age in year y is below 17 or at least 70, and 8 exactly
when 17 <= y - b < 70. -/
theorem required_hours_age_rule (m : Member) (y b : Int)
    (h : member_birth_year m = some b) :
    (get_required_hours_for_member m y = 0 ↔ (y - b < 17 ∨ 70 ≤ y - b)) ∧
    (get_required_hours_for_member m y = 8 ↔ (17 ≤ y - b ∧ y - b < 70)) := by
  by_cases hc : 17 ≤ y - b ∧ y - b < 70
  · have hv : get_required_hours_for_member m y = 8 := by
      unfold get_required_hours_for_member
      rw [eligible_of_birth_year_some m y b h]
      simp [hc]
    rw [hv]
    constructor
    · constructor
      · intro h80
        norm_num at h80
      · intro hor
        omega
    · simp [hc]
  · have hv : get_required_hours_for_member m y = 0 := by
      unfold get_required_hours_for_member
      rw [eligible_of_birth_year_some m y b h]
      simp [hc]
    rw [hv]
    constructor
    · constructor
      · intro _
        omega
      · intro _
        rfl
    · constructor
      · intro h08
        norm_num at h08
      · intro hand
        exact absurd hand hc

/-- Witness for C5 at a concrete member born 1990-05-10 and year
2024. -/
theorem required_hours_age_rule_witness :
    get_required_hours_for_member m_adult 2024 = 8 ↔
      (17 ≤ (2024 : Int) - 1990 ∧ (2024 : Int) - 1990 < 70) :=
  (required_hours_age_rule m_adult 2024 1990 (by decide)).2

/-- C9: a member whose birth date is absent, trim-empty, or parses
as neither RFC3339 nor %Y-%m-%d owes the standard 8 hours (the
fail-open default, no exemption). -/
theorem required_hours_fail_open (m : Member) (y : Int)
    (h : member_birth_year m = none) :
    get_required_hours_for_member m y = 8 := by
  unfold get_required_hours_for_member
  rw [eligible_of_birth_year_none m y h]
  rfl

/-- Witness for C9 at a concrete member with an unparseable birth
date. -/
theorem required_hours_fail_open_witness :
    get_required_hours_for_member m_badbirth 2024 = 8 :=
  required_hours_fail_open m_badbirth 2024 (by decide)

/-- C1 (amended): the code has no late-entry exemption. The Member
model carries no join-date field, and get_required_hours_for_member
returns the standard 8 hours for every member the age rule deems
eligible, regardless of any join date. -/
theorem required_hours_no_late_entry (m : Member) (y : Int)
    (h : is_member_eligible_for_work_hours m y = true) :
    get_required_hours_for_member m y = 8 := by
  unfold get_required_hours_for_member
  simp [h]

/-- Witness for the amended C1 at a concrete age-eligible member. -/
theorem required_hours_no_late_entry_witness :
    get_required_hours_for_member m_adult 2024 = 8 :=
  required_hours_no_late_entry m_adult 2024 (by decide)

/-- C1 counterexample: a member born 1990-05-10 is otherwise
eligible by age for 2024, and the join date 2024-08-01 lies on or
after July 1 of 2024 (in the spec reading), yet the code returns 8
required hours, not the claimed 0 with a late-entry exemption; the
source function has no join-date input at all. -/
theorem late_entry_counterexample :
    is_member_eligible_for_work_hours m_adult 2024 = true ∧
    join_date_on_or_after_july1 ("2024-08-01") 2024 = true ∧
    get_required_hours_for_member m_adult 2024 = 8 ∧
    get_required_hours_for_member m_adult 2024 ≠ 0 := by
  refine ⟨by decide, by decide, by decide, by decide⟩

/-! ### Create pipeline: validation order, year window, duplicates,
upstream failure -/

theorem parse_ymd_some_ne_empty {s : String} {d : YMD}
    (h : parse_ymd s = some d) : s ≠ "" := by
  intro h0
  rw [h0] at h
  have hnone : parse_ymd "" = none := by decide
  rw [hnone] at h
  exact Option.noConfusion h

/-- Whatever the collaborators do after the year window passed, the
remaining stages never produce a year-out-of-range response. -/
theorem create_resolve_member_not_year (payload : CreateWorkHourRequest)
    (ml : Except Unit (Option Member)) (dup : Except Unit (List WorkHour))
    (ups : Except String WorkHour) :
    (create_resolve_member payload ml dup ups).is_year_out_of_range = false := by
  unfold create_resolve_member create_check_duplicate_and_create
  cases ml with
  | error e => rfl
  | ok o =>
    cases o with
    | none => rfl
    | some user =>
      cases dup with
      | error e => rfl
      | ok whs =>
        cases hw : whs.isEmpty with
        | false => simp [hw, CreateResponse.is_year_out_of_range]
        | true =>
          cases ups with
          | ok wh => simp [hw, CreateResponse.is_year_out_of_range]
          | error e => simp [hw, CreateResponse.is_year_out_of_range]

/-- C6: with the minimum allowed year equal to the previous year in
January and the current year otherwise, a submission that passes the
emptiness checks and parses is rejected as year-out-of-range exactly
when its year is strictly below the minimum; hence a prior-year date
passes in January and fails in February. -/
theorem create_year_window (payload : CreateWorkHourRequest) (today : Today)
    (ml : Except Unit (Option Member)) (dup : Except Unit (List WorkHour))
    (ups : Except String WorkHour) (d : YMD)
    (hdesc : payload.description ≠ "") (hh : 0 < payload.hours)
    (hp : parse_ymd payload.date = some d) :
    (create_work_hour payload today ml dup ups).is_year_out_of_range = true ↔
      d.year < min_allowed_year today := by
  have hd : payload.date ≠ "" := parse_ymd_some_ne_empty hp
  unfold create_work_hour
  rw [if_neg hd, if_neg hdesc, if_neg (not_le.mpr hh), hp]
  simp only [create_with_parsed]
  by_cases hy : d.year < min_allowed_year today
  · rw [if_pos hy]
    by_cases hm : today.month = 1
    · simp [hm, CreateResponse.is_year_out_of_range, hy]
    · simp [hm, CreateResponse.is_year_out_of_range, hy]
  · rw [if_neg hy]
    rw [create_resolve_member_not_year]
    simp [hy]

def p_prior : CreateWorkHourRequest :=
  { date := "2024-12-31", description := "Winterdienst", hours := 1 }

def t_jan : Today := { year := 2025, month := 1 }

def t_feb : Today := { year := 2025, month := 2 }

/-- Witness for C6: a submission dated 2024-12-31 judged in
February 2025 (minimum allowed year 2025). -/
theorem create_year_window_witness :
    (create_work_hour p_prior t_feb (.ok (some m_adult)) (.ok [])
      (.error ("down"))).is_year_out_of_range = true ↔
      (2024 : Int) < min_allowed_year t_feb :=
  create_year_window p_prior t_feb (.ok (some m_adult)) (.ok [])
    (.error ("down")) { year := 2024, month := 12, day := 31 }
    (by decide) (by decide) (by decide)

/-- C4 (amended): the handler rejects an empty date, an empty
description and non-positive hours first, each with the same bare
400; the YYYY-MM-DD parse runs only afterwards, so a non-empty
unparseable date yields the bad-date-format rejection only when the
description is non-empty and the hours positive. -/
theorem create_bad_date_format (payload : CreateWorkHourRequest) (today : Today)
    (ml : Except Unit (Option Member)) (dup : Except Unit (List WorkHour))
    (ups : Except String WorkHour)
    (hd : payload.date ≠ "") (hdesc : payload.description ≠ "")
    (hh : 0 < payload.hours) (hp : parse_ymd payload.date = none) :
    create_work_hour payload today ml dup ups = .badDateFormat := by
  unfold create_work_hour
  rw [if_neg hd, if_neg hdesc, if_neg (not_le.mpr hh), hp]
  rfl

def p_badformat : CreateWorkHourRequest :=
  { date := "2024-99-99", description := "Zaunbau", hours := 2 }

/-- Witness for the amended C4: a well-formed submission apart from
the malformed date. -/
theorem create_bad_date_format_witness :
    create_work_hour p_badformat t_feb (.ok (some m_adult)) (.ok [])
      (.error ("down")) = .badDateFormat :=
  create_bad_date_format p_badformat t_feb (.ok (some m_adult)) (.ok [])
    (.error ("down")) (by decide) (by decide) (by decide) (by decide)

def p_c4 : CreateWorkHourRequest :=
  { date := "2024-99-99", description := "", hours := 5 }

/-- C4 counterexample: a submission whose date is non-empty but
unparseable and whose description is empty is answered with the
bare 400 of the emptiness checks, not with the bad-date-format
rejection the claim requires. -/
theorem validation_order_counterexample :
    create_work_hour p_c4 t_feb (.ok (some m_adult)) (.ok [])
      (.error ("down")) = .badRequest ∧
    p_c4.date ≠ "" ∧
    parse_ymd p_c4.date = none ∧
    CreateResponse.badRequest ≠ CreateResponse.badDateFormat := by
  refine ⟨by decide, by decide, by decide, by decide⟩

/-- C3 (amended): when the Records Service create call fails, the
handler still answers with the success flag set, echoing the
submission and carrying the upstream error text; no
service-unavailable condition is surfaced. -/
theorem create_upstream_failure_reports_success
    (payload : CreateWorkHourRequest) (today : Today) (user : Member)
    (e : String) (d : YMD)
    (hdesc : payload.description ≠ "") (hh : 0 < payload.hours)
    (hp : parse_ymd payload.date = some d)
    (hy : ¬ d.year < min_allowed_year today) :
    create_work_hour payload today (.ok (some user)) (.ok []) (.error e) =
      .createdFallback user.name payload.date payload.description payload.hours e ∧
    (create_work_hour payload today (.ok (some user)) (.ok [])
      (.error e)).success_flag = true := by
  have hd : payload.date ≠ "" := parse_ymd_some_ne_empty hp
  have hmain : create_work_hour payload today (.ok (some user)) (.ok []) (.error e) =
      .createdFallback user.name payload.date payload.description payload.hours e := by
    unfold create_work_hour
    rw [if_neg hd, if_neg hdesc, if_neg (not_le.mpr hh), hp]
    simp only [create_with_parsed]
    rw [if_neg hy]
    rfl
  exact ⟨hmain, by rw [hmain]; rfl⟩

def p_ok : CreateWorkHourRequest :=
  { date := "2025-02-10", description := "Heckenschnitt", hours := 3 }

/-- Witness for the amended C3 at a concrete valid submission. -/
theorem create_upstream_failure_reports_success_witness :
    create_work_hour p_ok t_feb (.ok (some m_adult)) (.ok [])
      (.error ("connection refused")) =
      .createdFallback m_adult.name p_ok.date p_ok.description p_ok.hours
        ("connection refused") :=
  (create_upstream_failure_reports_success p_ok t_feb m_adult
    ("connection refused") { year := 2025, month := 2, day := 10 }
    (by decide) (by decide) (by decide) (by decide)).1

/-- C3 counterexample: with the Records Service create failing, the
response still reports success, contradicting the claim that a
failure is never reported as successful. -/
theorem create_upstream_failure_counterexample :
    (create_work_hour p_ok t_feb (.ok (some m_adult)) (.ok [])
      (.error ("connection refused"))).success_flag = true := by
  decide

/-- C7: a submission by a member who already has an entry whose
normalized date equals the submitted date is rejected as a
duplicate — for every behavior of the Records Service create call,
which is therefore never observable (and no entry is created) —
regardless of the differing description or hours of the existing
entry. -/
theorem duplicate_rejected (payload : CreateWorkHourRequest) (today : Today)
    (user : Member) (store : List WorkHour) (ups : Except String WorkHour)
    (d : YMD) (wh : WorkHour) (ds : String)
    (hdesc : payload.description ≠ "") (hh : 0 < payload.hours)
    (hp : parse_ymd payload.date = some d)
    (hy : ¬ d.year < min_allowed_year today)
    (hmem : wh ∈ store) (hown : wh.get_member_id = some user.id)
    (hdgo : wh.date = some ds) (hnorm : normalize_date ds = payload.date) :
    create_work_hour payload today (.ok (some user))
      (.ok (get_work_hours_for_member_at_date store user.id payload.date)) ups =
      .duplicateEntry := by
  have hd : payload.date ≠ "" := parse_ymd_some_ne_empty hp
  have hwmem : wh ∈ get_work_hours_for_member_at_date store user.id payload.date := by
    unfold get_work_hours_for_member_at_date
    refine List.mem_filter.mpr ⟨hmem, ?_⟩
    simp [hown, hdgo, hnorm]
  unfold create_work_hour
  rw [if_neg hd, if_neg hdesc, if_neg (not_le.mpr hh), hp]
  simp only [create_with_parsed]
  rw [if_neg hy]
  simp only [create_resolve_member, create_check_duplicate_and_create]
  rw [if_neg (fun hI =>
    List.ne_nil_of_mem hwmem (List.isEmpty_iff.mp hI))]

def wh_dup : WorkHour :=
  { id := "whDup", member_id := some (.str "recAdult"), member_uuid := none,
    date := some ("2025-02-10T00:00:00.000Z"),
    description := some ("Alte Meldung"), duration_seconds := some 7200 }

/-- Witness for C7: the member already has an entry stored under a
date-time whose normalized date is the submitted day; the upstream
create is set to succeed and is still never consulted. -/
theorem duplicate_rejected_witness :
    create_work_hour p_ok t_feb (.ok (some m_adult))
      (.ok (get_work_hours_for_member_at_date [wh_dup] m_adult.id p_ok.date))
      (.ok wh_dup) = .duplicateEntry :=
  duplicate_rejected p_ok t_feb m_adult [wh_dup] (.ok wh_dup)
    { year := 2025, month := 2, day := 10 } wh_dup ("2025-02-10T00:00:00.000Z")
    (by decide) (by decide) (by decide) (by decide)
    (by decide) (by decide) (by decide) (by decide)

/-! ### Ownership on read, update, delete -/

def m_second : Member :=
  { id := "recB", first_name := "Erika", last_name := "Zwei",
    email := "erika@example.com", family_id := none,
    birth_date := some ("1985-01-01") }

def wh_other : WorkHour :=
  { id := "whX", member_id := some (.str "recAdult"), member_uuid := none,
    date := some ("2025-02-03"), description := some ("Heckenpflege"),
    duration_seconds := some 3600 }

/-- C2 (amended): for the read-by-id and update handlers an entry
owned by a different member is answered exactly like a missing
entry (the identical rejection) and the store is left unchanged;
the delete handler, however, performs no ownership check and
removes the entry of any other member. -/
theorem ownership_treated_as_not_found
    (user : Member) (today : Today) (store : List WorkHour) (whid : String)
    (payload : CreateWorkHourRequest) (b : Bool) (wh : WorkHour) (oid : String)
    (d : YMD)
    (hfind : find_work_hour store whid = some wh)
    (hoid : wh.get_member_id = some oid) (hne : oid ≠ user.id)
    (hd : payload.date ≠ "") (hdesc : payload.description ≠ "")
    (hh : 0 < payload.hours) (hp : parse_ymd payload.date = some d)
    (hy : ¬ d.year < min_allowed_year today) :
    get_work_hour_by_id user store whid = .notFoundOrNoPermission ∧
    get_work_hour_by_id user (store.filter (fun w => !(decide (w.id = whid)))) whid =
      .notFoundOrNoPermission ∧
    update_work_hour user today store whid payload b = (.notFoundOrNoPermission, store) ∧
    update_work_hour user today (store.filter (fun w => !(decide (w.id = whid))))
      whid payload b =
      (.notFoundOrNoPermission, store.filter (fun w => !(decide (w.id = whid)))) ∧
    delete_work_hour store whid =
      (.deleted, store.filter (fun w => !(decide (w.id = whid)))) := by
  have hh' : ¬ payload.hours ≤ 0 := not_le.mpr hh
  have hbel : belongs_to_user wh user = false := by
    unfold belongs_to_user
    rw [hoid]
    simp [hne]
  have hfilter : find_work_hour (store.filter (fun w => !(decide (w.id = whid)))) whid =
      none := by
    unfold find_work_hour
    apply List.find?_eq_none.mpr
    intro x hx
    have h2 := (List.mem_filter.mp hx).2
    simp at h2 ⊢
    exact h2
  refine ⟨?_, ?_, ?_, ?_, ?_⟩
  · simp [get_work_hour_by_id, hfind, hbel]
  · simp [get_work_hour_by_id, hfilter]
  · simp [update_work_hour, hd, hdesc, hh', hp, hy, hfind, hbel]
  · simp [update_work_hour, hd, hdesc, hh', hp, hy, hfilter]
  · simp [delete_work_hour, hfind]

/-- Witness for the amended C2: member recB acting on an entry
owned by recAdult. -/
theorem ownership_treated_as_not_found_witness :
    get_work_hour_by_id m_second [wh_other] ("whX") = .notFoundOrNoPermission :=
  (ownership_treated_as_not_found m_second t_feb [wh_other] ("whX") p_ok true
    wh_other ("recAdult") { year := 2025, month := 2, day := 10 }
    (by decide) (by decide) (by decide) (by decide) (by decide)
    (by decide) (by decide) (by decide)).1

/-- C2 counterexample: the delete handler removes an entry owned by
a different member and answers with success, unlike its answer for
a non-existent entry, so deletion neither hides the entry nor
leaves it unchanged. -/
theorem delete_ownership_counterexample :
    delete_work_hour [wh_other] ("whX") = (.deleted, []) ∧
    delete_work_hour [] ("whX") = (.deleteFailed, []) ∧
    DeleteWHResponse.deleted ≠ DeleteWHResponse.deleteFailed ∧
    wh_other.get_member_id = some ("recAdult") ∧
    ("recAdult" : String) ≠ m_second.id := by
  refine ⟨by decide, by decide, by decide, by decide, by decide⟩

/-! ### Family aggregation -/

/-- C8 (amended): the family percentage is 100 whenever the
required total is zero, regardless of completed hours; otherwise it
is completed over required times 100 exactly, with no rounding to
two decimals applied. -/
theorem family_percentage_rule (fname : String)
    (fam : List (Member × List WorkHourEntry)) (y : Int) :
    ((build_family_data fname fam y).required = 0 →
      (build_family_data fname fam y).percentage = 100) ∧
    ((build_family_data fname fam y).required ≠ 0 →
      (build_family_data fname fam y).percentage =
        (build_family_data fname fam y).completed /
          (build_family_data fname fam y).required * 100) := by
  have hreq : (build_family_data fname fam y).required =
      (fam.map (fun p => get_required_hours_for_member p.1 y)).sum := rfl
  have hcomp : (build_family_data fname fam y).completed =
      (fam.map (fun p => calculate_total_hours p.2)).sum := rfl
  have hperc : (build_family_data fname fam y).percentage =
      (if (fam.map (fun p => get_required_hours_for_member p.1 y)).sum > 0 then
        (fam.map (fun p => calculate_total_hours p.2)).sum /
          (fam.map (fun p => get_required_hours_for_member p.1 y)).sum * 100
       else 100) := rfl
  have hnn : 0 ≤ (fam.map (fun p => get_required_hours_for_member p.1 y)).sum := by
    apply List.sum_nonneg
    intro q hq
    obtain ⟨p, hp1, hp2⟩ := List.mem_map.mp hq
    rw [← hp2]
    unfold get_required_hours_for_member
    split
    · norm_num
    · norm_num
  constructor
  · intro h0
    rw [hreq] at h0
    rw [hperc, h0]
    norm_num
  · intro hne0
    rw [hreq] at hne0
    have hpos : 0 < (fam.map (fun p => get_required_hours_for_member p.1 y)).sum :=
      lt_of_le_of_ne hnn (Ne.symm hne0)
    rw [hperc, hcomp, hreq, if_pos hpos]

def m_child : Member :=
  { id := "recChild", first_name := "Kim", last_name := "Klein",
    email := "kim@example.com", family_id := some ("Muster"),
    birth_date := some ("2015-04-01") }

def e_two : WorkHourEntry :=
  { id := "e2", date := "2024-06-01", description := "Hilfe beim Fest",
    duration_hours := 2 }

def fam_zero : List (Member × List WorkHourEntry) := [(m_child, [e_two])]

/-- Witness for the amended C8: a family whose only member is
age-exempt owes 0 and shows 100 percent despite 2 completed
hours. -/
theorem family_percentage_rule_witness :
    (build_family_data ("Muster") fam_zero 2024).percentage = 100 :=
  (family_percentage_rule ("Muster") fam_zero 2024).1 (by
    have h1 : (build_family_data ("Muster") fam_zero 2024).required =
        get_required_hours_for_member m_child 2024 + 0 := rfl
    have h2 : get_required_hours_for_member m_child 2024 = 0 := by decide
    rw [h1, h2, add_zero])

def e_cent : WorkHourEntry :=
  { id := "e1", date := "2024-03-05", description := "Kassendienst",
    duration_hours := 1 / 100 }

def fam_cx : List (Member × List WorkHourEntry) := [(m_adult, [e_cent])]

/-- C8 counterexample: one eligible member (required 8) with 0.01
completed hours; the handler reports the exact percentage 0.125
rather than the two-decimal rounding 0.13 the claim requires. -/
theorem family_percentage_counterexample :
    (build_family_data ("Muster") fam_cx 2024).required = 8 ∧
    (build_family_data ("Muster") fam_cx 2024).completed = 1 / 100 ∧
    (build_family_data ("Muster") fam_cx 2024).percentage = 1 / 8 ∧
    round_to_2_decimals (1 / 8) = 13 / 100 ∧
    (1 : ℚ) / 8 ≠ 13 / 100 := by
  have hr8 : get_required_hours_for_member m_adult 2024 = 8 := by decide
  have hreq : (build_family_data ("Muster") fam_cx 2024).required =
      get_required_hours_for_member m_adult 2024 + 0 := rfl
  have hcal : calculate_total_hours [e_cent] =
      round_to_2_decimals (1 / 100 + 0) := rfl
  have hcal2 : calculate_total_hours [e_cent] = 1 / 100 := by
    rw [hcal, add_zero]
    unfold round_to_2_decimals
    norm_num [round_eq]
  have hcomp : (build_family_data ("Muster") fam_cx 2024).completed =
      calculate_total_hours [e_cent] + 0 := rfl
  have hperc : (build_family_data ("Muster") fam_cx 2024).percentage =
      (if (get_required_hours_for_member m_adult 2024 + 0 : ℚ) > 0 then
        (calculate_total_hours [e_cent] + 0) /
          (get_required_hours_for_member m_adult 2024 + 0) * 100
       else 100) := rfl
  refine ⟨?_, ?_, ?_, ?_, ?_⟩
  · rw [hreq, hr8, add_zero]
  · rw [hcomp, hcal2, add_zero]
  · rw [hperc, hr8, hcal2]
    norm_num
  · unfold round_to_2_decimals
    norm_num [round_eq]
  · norm_num

/-! ### Dashboard year resolution -/

/-- The family block always succeeds when the family-members fetch
does. -/
theorem dashboard_family_ok (fam : List (Member × List WorkHourEntry))
    (y : Int) (fid : Option String) :
    ∃ od, dashboard_family (.ok fam) y fid = .ok od := by
  cases fid with
  | none => exact ⟨none, rfl⟩
  | some fn =>
    by_cases hfn : fn = ""
    · subst hfn
      exact ⟨none, rfl⟩
    · refine ⟨some (build_family_data fn fam y), ?_⟩
      simp only [dashboard_family]
      rw [if_neg hfn]

/-- C10: when the year path parameter does not parse as an i32, the
dashboard is computed for the default year 2024 with a successful
response (given working collaborators), and the response carries
year 2024. -/
theorem dashboard_default_year (yp : String) (user : Member)
    (entries : List WorkHourEntry) (fam : List (Member × List WorkHourEntry))
    (h : rust_parse_i32 yp = none) :
    ∃ r : DashboardResponse,
      dashboard yp (.ok entries) (.ok fam) (.ok (some user)) = .ok r ∧
      r.year = 2024 ∧ r.success = true := by
  obtain ⟨od, hod⟩ := dashboard_family_ok fam 2024 user.family_id
  simp only [dashboard, dashboard_user]
  rw [h]
  simp only [Option.getD_none]
  rw [hod]
  exact ⟨_, rfl, rfl, rfl⟩

/-- Witness for C10: the year parameter latest is not an integer,
and the response year is 2024. -/
theorem dashboard_default_year_witness :
    ∃ r : DashboardResponse,
      dashboard ("latest") (.ok []) (.ok []) (.ok (some m_adult)) = .ok r ∧
      r.year = 2024 ∧ r.success = true :=
  dashboard_default_year ("latest") m_adult [] [] (by decide)

end TennisApp
